import Mathlib

/-!
Verification development for `pyIOSXR/iosxr.py`, a driver that speaks an
XML-RPC dialect to an IOS-XR device over an interactive terminal session.

Shallow embedding notes.
* The XML parse tree collaborator (`xml.etree.ElementTree`) is modelled by
  `XNode` with `find` (first child with a given tag), `get` (attribute
  lookup) and `text`, exactly the interface the source uses.
* The transport (`pexpect`) is modelled by a `Device` that maps each sent
  envelope line to the parsed root of the device's response, plus a
  `Transport` record for the interactive login handshake in `open`.
  Each operation returns the list of lines sent as RPC envelopes (the
  observable trace) together with an `Except` value standing for Python's
  normal return / raised exception.
* Python `int(...)` on the `ErrorCount` attribute string is modelled by
  `pyInt?`; `None` values flowing into `+`, `int` or attribute access are
  modelled by the corresponding untyped Python exceptions (`TypeErr`,
  `AttributeErr`, `ValueErr`).
-/

set_option autoImplicit false

/-- Python whitespace, as stripped by `str.lstrip()` / `int()` in Python 2:
space, tab, linefeed, carriage return, vertical tab, form feed. -/
def isPySpace (c : Char) : Bool :=
  c == ' ' || c == '\t' || c == '\n' || c == '\r' || c == '\x0b' || c == '\x0c'

/-- Python `s.lstrip()`: drop leading whitespace, keep everything after it. -/
def pyLStrip (s : String) : String :=
  ⟨s.data.dropWhile isPySpace⟩

/-- Numeric value of a digit list, most significant first. -/
def digitsToNat (ds : List Char) : Nat :=
  ds.foldl (fun a c => a * 10 + (c.toNat - 48)) 0

/-- Python 2 `int(s)` on a string: strip whitespace, optional sign, digits;
`none` models the `ValueError` raised on any other shape. -/
def pyInt? (s : String) : Option Int :=
  let t := ((s.data.dropWhile isPySpace).reverse.dropWhile isPySpace).reverse
  match t with
  | [] => none
  | '-' :: ds =>
      if !ds.isEmpty && ds.all Char.isDigit then some (-(digitsToNat ds : Int)) else none
  | '+' :: ds =>
      if !ds.isEmpty && ds.all Char.isDigit then some ((digitsToNat ds : Int)) else none
  | ds =>
      if ds.all Char.isDigit then some ((digitsToNat ds : Int)) else none

/-- Substring test on character lists (Python's `pat in s`). -/
def listInfix : List Char → List Char → Bool
  | pat, [] => pat.isEmpty
  | pat, c :: t => pat.isPrefixOf (c :: t) || listInfix pat t

/-- Python's `pat in s` on strings. -/
def strContains (s pat : String) : Bool :=
  listInfix pat.data s.data

/-- The XML parse tree exposed by `xml.etree.ElementTree`: tag, attributes,
text content, ordered children. -/
inductive XNode where
  | node (tag : String) (attrs : List (String × String)) (text : Option String)
      (children : List XNode)

def XNode.tag : XNode → String
  | .node t _ _ _ => t

def XNode.attrs : XNode → List (String × String)
  | .node _ a _ _ => a

def XNode.text : XNode → Option String
  | .node _ _ x _ => x

def XNode.children : XNode → List XNode
  | .node _ _ _ c => c

/-- Model of `ET.Element.find(tag)`: first direct child with the given tag, if any. -/
def XNode.find (n : XNode) (t : String) : Option XNode :=
  n.children.find? (fun c => c.tag == t)

/-- Model of `ET.Element.get(attr)`: attribute value, if present. -/
def XNode.get (n : XNode) (a : String) : Option String :=
  (n.attrs.find? (fun p => p.1 == a)).map Prod.snd

/-- The exceptions the driver can raise.  `XMLCLIError` and
`InvalidInputError` are the typed errors imported by the source;
`TypeErr`, `AttributeErr` and `ValueErr` model Python's untyped built-in
exceptions; `PexpectErr` models `pexpect` timeout/EOF failures of
`expect`; `AuthenticationError` appears in the specification's taxonomy
but is never defined or raised by the source. -/
inductive PyError where
  | XMLCLIError (msg : String)
  | InvalidInputError (msg : String)
  | TypeErr (msg : String)
  | AttributeErr (msg : String)
  | ValueErr (msg : String)
  | PexpectErr (msg : String)
  | AuthenticationError (msg : String)

/-- The transport + framer + parser collaborators in XML mode: for each
envelope line sent, the parsed root of the response the device returns. -/
structure Device where
  respond : String → XNode

/-- Line 26 of the source: the fixed request envelope around a body. -/
def buildEnvelope (body : String) : String :=
  "<?xml version=\"1.0\" encoding=\"UTF-8\"?><Request MajorVersion=\"1\" MinorVersion=\"0\">"
    ++ body ++ "</Request>"

/-- Lines 31-53 of `__execute_rpc__`: given the parsed response root and the
envelope that was sent, classify the response.  Mirrors the source
statement by statement; `'CLI' in childs` is rendered as matching on
`root.find "CLI"`, which is `some _` exactly when a child with tag `CLI`
exists among the direct children. -/
def classify_response (root : XNode) (rpc_command : String) : Except PyError XNode :=
  match root.find "ResultSummary" with
  | none => .error (.AttributeErr "NoneType object has no attribute get")
  | some rs =>
    match rs.get "ErrorCount" with
    | none => .error (.TypeErr "int() argument must be a string or a number, not NoneType")
    | some ec =>
      match pyInt? ec with
      | none => .error (.ValueErr "invalid literal for int() with base 10")
      | some n =>
        if 0 < n then
          match (match root.find "CLI" with
                 | some cli => cli.get "ErrorMsg"
                 | none => root.get "ErrorMsg") with
          | none => .error (.TypeErr "cannot concatenate NoneType and str objects")
          | some m => .error (.XMLCLIError (m ++ "\nOriginal call was: " ++ rpc_command))
        else
          match root.find "CLI" with
          | none => .ok root
          | some cli =>
            match cli.find "Configuration" with
            | none => .ok root
            | some conf =>
              match conf.text with
              | none => .ok root
              | some output =>
                if strContains output "Invalid input detected" then
                  .error (.InvalidInputError ("Invalid input entered:\n" ++ output))
                else .ok root

/-- Model of `__execute_rpc__(device, rpc_command)`: wrap the body in the envelope,
send it (appending it to the trace of sent RPC lines), and classify the
parsed response. -/
def __execute_rpc__ (dev : Device) (trace : List String) (rpc_command : String) :
    List String × Except PyError XNode :=
  let cmd := buildEnvelope rpc_command
  (trace ++ [cmd], classify_response (dev.respond cmd) cmd)

/-- Model of `__execute_show__(device, show_command)`: run the command inside
`<CLI><Exec>…</Exec></CLI>` and return the `Exec` node's text, left
stripped.  A missing `CLI`/`Exec` node or a `None` text surfaces as the
`AttributeError` Python would raise on `None`. -/
def __execute_show__ (dev : Device) (trace : List String) (show_command : String) :
    List String × Except PyError String :=
  let rpc_command := "<CLI><Exec>" ++ show_command ++ "</Exec></CLI>"
  let r := __execute_rpc__ dev trace rpc_command
  match r.2 with
  | .error e => (r.1, .error e)
  | .ok root =>
    match (root.find "CLI").bind (fun cli => cli.find "Exec") with
    | none => (r.1, .error (.AttributeErr "NoneType object has no attribute find"))
    | some ex =>
      match ex.text with
      | none => (r.1, .error (.AttributeErr "NoneType object has no attribute lstrip"))
      | some s => (r.1, .ok (pyLStrip s))

/-- Model of `__execute_config_show__(device, show_command)`: same as
`__execute_show__` but inside `<CLI><Configuration>…</Configuration></CLI>`. -/
def __execute_config_show__ (dev : Device) (trace : List String) (show_command : String) :
    List String × Except PyError String :=
  let rpc_command := "<CLI><Configuration>" ++ show_command ++ "</Configuration></CLI>"
  let r := __execute_rpc__ dev trace rpc_command
  match r.2 with
  | .error e => (r.1, .error e)
  | .ok root =>
    match (root.find "CLI").bind (fun cli => cli.find "Configuration") with
    | none => (r.1, .error (.AttributeErr "NoneType object has no attribute find"))
    | some conf =>
      match conf.text with
      | none => (r.1, .error (.AttributeErr "NoneType object has no attribute lstrip"))
      | some s => (r.1, .ok (pyLStrip s))

/-- Model of `discard_config`: issue a `<Clear/>` RPC; the response value is dropped. -/
def discard_config (dev : Device) (trace : List String) :
    List String × Except PyError Unit :=
  let r := __execute_rpc__ dev trace "<Clear/>"
  match r.2 with
  | .ok _ => (r.1, .ok ())
  | .error e => (r.1, .error e)

/-- Model of `commit_config`: issue a `<Commit/>` RPC. -/
def commit_config (dev : Device) (trace : List String) :
    List String × Except PyError Unit :=
  let r := __execute_rpc__ dev trace "<Commit/>"
  match r.2 with
  | .ok _ => (r.1, .ok ())
  | .error e => (r.1, .error e)

/-- Model of `commit_replace_config`: issue a `<Commit Replace="true"/>` RPC. -/
def commit_replace_config (dev : Device) (trace : List String) :
    List String × Except PyError Unit :=
  let r := __execute_rpc__ dev trace "<Commit Replace=\"true\"/>"
  match r.2 with
  | .ok _ => (r.1, .ok ())
  | .error e => (r.1, .error e)

/-- Model of `rollback`: issue the compound unlock/rollback/lock RPC. -/
def rollback (dev : Device) (trace : List String) :
    List String × Except PyError Unit :=
  let r := __execute_rpc__ dev trace "<Unlock/><Rollback><Previous>1</Previous></Rollback><Lock/>"
  match r.2 with
  | .ok _ => (r.1, .ok ())
  | .error e => (r.1, .error e)

/-- Lines 140-146: resolve the configuration text from the `filename` /
`config` arguments; the file read is the external collaborator `readFile`.
`none` means Python's `None` flowed through. -/
def resolve_configuration (filename : Option String) (readFile : String → String)
    (config : Option String) : Option String :=
  match filename with
  | none => config
  | some f => some (readFile f)

/-- Model of `load_candidate_config(filename, config)`: build
`<CLI><Configuration>…</Configuration></CLI>` and execute it; on
`InvalidInputError` call `discard_config` and re-raise the error with the
same message.  When both arguments are `None`, concatenating `None` into
the RPC body raises `TypeError` before anything is sent. -/
def load_candidate_config (dev : Device) (trace : List String)
    (filename : Option String) (readFile : String → String) (config : Option String) :
    List String × Except PyError Unit :=
  match resolve_configuration filename readFile config with
  | none => (trace, .error (.TypeErr "cannot concatenate str and NoneType objects"))
  | some configuration =>
    let rpc_command := "<CLI><Configuration>" ++ configuration ++ "</Configuration></CLI>"
    let r := __execute_rpc__ dev trace rpc_command
    match r.2 with
    | .ok _ => (r.1, .ok ())
    | .error (.InvalidInputError m) =>
      let d := discard_config dev r.1
      match d.2 with
      | .ok _ => (d.1, .error (.InvalidInputError m))
      | .error e2 => (d.1, .error e2)
    | .error e => (r.1, .error e)

/-- Python 2 `str.splitlines(True)` on character lists: split at `\n`, `\r`
and `\r\n`, keeping the line terminator on each line.  `acc` holds the
current line's characters in reverse. -/
def splitlinesGo : Nat → List Char → List Char → List (List Char)
  | 0, _, _ => []
  | _ + 1, [], [] => []
  | _ + 1, [], acc => [acc.reverse]
  | f + 1, '\r' :: '\n' :: rest, acc => ('\n' :: '\r' :: acc).reverse :: splitlinesGo f rest []
  | f + 1, '\r' :: rest, acc => ('\r' :: acc).reverse :: splitlinesGo f rest []
  | f + 1, '\n' :: rest, acc => ('\n' :: acc).reverse :: splitlinesGo f rest []
  | f + 1, c :: rest, acc => splitlinesGo f rest (c :: acc)

/-- Python `s.splitlines(1)`: the lines of `s`, terminators kept. -/
def pySplitlinesKeep (s : String) : List String :=
  (splitlinesGo (s.data.length + 1) s.data []).map (fun l => ⟨l⟩)

/-- Python's `l[2:-2]`: drop the first two and the last two elements
(empty result when fewer than four elements remain). -/
def slice2m2 {α : Type} (l : List α) : List α :=
  ((l.drop 2).reverse.drop 2).reverse

/-- Python `x.replace` of carriage return by nothing: delete every carriage return. -/
def removeCR (x : String) : String :=
  ⟨x.data.filter (fun c => !(c == '\r'))⟩

/-- Model of `compare_config`: fetch the merge preview and the running config, diff
the line lists with the first two and last two lines of each side dropped,
zero context lines, and strip carriage returns from the joined result.
`udiff` is the external `difflib.unified_diff` collaborator (inputs,
then the `n` context parameter). -/
def compare_config (udiff : List String → List String → Nat → List String)
    (dev : Device) (trace : List String) : List String × Except PyError String :=
  let rm := __execute_config_show__ dev trace "show configuration merge"
  match rm.2 with
  | .error e => (rm.1, .error e)
  | .ok show_merge =>
    let rr := __execute_show__ dev rm.1 "show running-config"
    match rr.2 with
    | .error e => (rr.1, .error e)
    | .ok show_run =>
      let d := udiff (slice2m2 (pySplitlinesKeep show_run))
                     (slice2m2 (pySplitlinesKeep show_merge)) 0
      (rr.1, .ok (String.join (d.map removeCR)))

/-- Model of `compare_replace_config`: ask the device for the replace-semantics diff
and return it with its first two and last two lines removed. -/
def compare_replace_config (dev : Device) (trace : List String) :
    List String × Except PyError String :=
  let r := __execute_config_show__ dev trace "show configuration changes diff"
  match r.2 with
  | .error e => (r.1, .error e)
  | .ok diff => (r.1, .ok (String.join (slice2m2 (pySplitlinesKeep diff))))

/-- The interactive login handshake collaborator used by `open` (lines
105-116).  `firstExpect` is the index returned by
`expect(['(yes/no)?', 'password:', EOF])`, `secondExpect` the index of the
re-issued expect after answering `yes` to the host-key prompt,
`promptOk` whether `expect('#')` finds the shell prompt before the
transport times out or hits EOF (false when the password is rejected),
`xmlOk` the same for `expect('XML>')` after sending `xml`. -/
structure Transport where
  firstExpect : Nat
  secondExpect : Nat
  promptOk : Bool
  xmlOk : Bool
  dev : Device

/-- Model of `open()`: drive the login handshake, enter XML mode, then issue the
initial `<Lock/>` RPC.  The trace records only RPC envelopes; the
handshake lines (`yes`, the password, `xml`) are transport-level input.
A failed `expect` is the `pexpect` timeout/EOF exception — the source
defines no `AuthenticationError` of its own. -/
def iosxr_open (t : Transport) : List String × Except PyError Unit :=
  let _index := if t.firstExpect = 0 then t.secondExpect else t.firstExpect
  if !t.promptOk then
    ([], .error (.PexpectErr "Timeout exceeded in read_nonblocking"))
  else if !t.xmlOk then
    ([], .error (.PexpectErr "Timeout exceeded in read_nonblocking"))
  else
    let r := __execute_rpc__ t.dev [] "<Lock/>"
    match r.2 with
    | .ok _ => (r.1, .ok ())
    | .error e => (r.1, .error e)

/-- Model of `close()`: issue `<Unlock/>` and release the transport. -/
def iosxr_close (dev : Device) (trace : List String) :
    List String × Except PyError Unit :=
  let r := __execute_rpc__ dev trace "<Unlock/>"
  match r.2 with
  | .ok _ => (r.1, .ok ())
  | .error e => (r.1, .error e)

/-- Python `s.startswith(pre)`. -/
def pyStartsWith (s pre : String) : Bool :=
  pre.data.isPrefixOf s.data

/-- Python `item.replace` of underscore by space. -/
def underscoreToSpace (s : String) : String :=
  ⟨s.data.map (fun c => if c == '_' then ' ' else c)⟩

/-- Start positions at which `pat` occurs in `s`. -/
def occList (pat s : List Char) : List Nat :=
  (List.range (s.length + 1)).filter (fun i => pat.isPrefixOf (s.drop i))

/-- Model of `re.search(".*(!! IOS XR Configuration.*)</Exec>", response, re.DOTALL)`
and `match.group(1)`: with both `.*` greedy, group 1 runs from the last
occurrence of the banner that is still followed by a `</Exec>` up to the
last occurrence of `</Exec>`; `none` when the pattern does not match. -/
def bannerSearch (resp : String) : Option String :=
  let banner := "!! IOS XR Configuration".data
  let closing := "</Exec>".data
  let s := resp.data
  match (occList closing s).getLast? with
  | none => none
  | some kmax =>
    match ((occList banner s).filter (fun i => i + banner.length ≤ kmax)).getLast? with
    | none => none
    | some i => some ⟨(s.drop i).take (kmax - i)⟩

/-- The closure built by `__getattr__`'s `wrapper`: replace underscores by
spaces, run the result as a show command, and trim the response to the
configuration banner when the banner pattern matches. -/
def show_wrapper_run (item : String) (dev : Device) (trace : List String) :
    List String × Except PyError String :=
  let cmd := underscoreToSpace item
  let r := __execute_show__ dev trace cmd
  match r.2 with
  | .error e => (r.1, .error e)
  | .ok response =>
    match bannerSearch response with
    | some g => (r.1, .ok g)
    | none => (r.1, .ok response)

/-- Model of `__getattr__(self, item)` (lines 82-99): names starting with `show`
yield the wrapper closure, every other undefined name raises
`AttributeError`. -/
def iosxr_getattr (item : String) :
    Except PyError (Device → List String → List String × Except PyError String) :=
  if pyStartsWith item "show" then .ok (show_wrapper_run item)
  else .error (.AttributeErr ("type object 'IOSXR' has no attribute '" ++ item ++ "'"))

/-- Result-kind observers, used to state which exception class a call
produced without fixing the exception's message text. -/
def isOkResult {α : Type} : Except PyError α → Bool
  | .ok _ => true
  | .error _ => false

def isXMLCLIError {α : Type} : Except PyError α → Bool
  | .error (.XMLCLIError _) => true
  | _ => false

def isInvalidInputError {α : Type} : Except PyError α → Bool
  | .error (.InvalidInputError _) => true
  | _ => false

def isTypeErr {α : Type} : Except PyError α → Bool
  | .error (.TypeErr _) => true
  | _ => false

def isAttributeErr {α : Type} : Except PyError α → Bool
  | .error (.AttributeErr _) => true
  | _ => false

def isPexpectErr {α : Type} : Except PyError α → Bool
  | .error (.PexpectErr _) => true
  | _ => false

def isAuthenticationError {α : Type} : Except PyError α → Bool
  | .error (.AuthenticationError _) => true
  | _ => false

/-- The node the source reads `ErrorMsg` from when `ErrorCount > 0`:
the `CLI` child when one exists among the direct children, the root
otherwise (lines 36-39). -/
def selectedErrorMsg (root : XNode) : Option String :=
  match root.find "CLI" with
  | some cli => cli.get "ErrorMsg"
  | none => root.get "ErrorMsg"

/-- True when the response carries no `CLI`/`Configuration` payload whose
text contains `"Invalid input detected"` (the condition under which lines
44-51 do not raise). -/
def configPayloadSafe (root : XNode) : Bool :=
  match (root.find "CLI").bind (fun cli => cli.find "Configuration") with
  | none => true
  | some conf =>
    match conf.text with
    | none => true
    | some output => !strContains output "Invalid input detected"

def rootC1 : XNode :=
  .node "Response" [] none
    [ .node "ResultSummary" [("ErrorCount", "0")] none []
    , .node "CLI" [] none
        [ .node "Configuration" [] (some "!\nInvalid input detected at marker\n!") [] ] ]

def devC1 : Device := ⟨fun _ => rootC1⟩

def rootC1ok : XNode :=
  .node "Response" [] none
    [ .node "ResultSummary" [("ErrorCount", "0")] none []
    , .node "CLI" [] none [ .node "Configuration" [] (some "interface Gi0\n") [] ] ]

def devC1ok : Device := ⟨fun _ => rootC1ok⟩

def rootC3 : XNode :=
  .node "Response" [("ErrorMsg", "root fallback message")] none
    [ .node "ResultSummary" [("ErrorCount", "2")] none []
    , .node "CLI" [("ErrorMsg", "Syntax error at token foo")] none [] ]

def devC3 : Device := ⟨fun _ => rootC3⟩

def rootC8 : XNode :=
  .node "Response" [] none
    [ .node "ResultSummary" [("ErrorCount", "1")] none []
    , .node "CLI" [] none [] ]

def devC8 : Device := ⟨fun _ => rootC8⟩

def rootC2bad : XNode :=
  .node "Response" [] none
    [ .node "ResultSummary" [("ErrorCount", "0")] none []
    , .node "CLI" [] none
        [ .node "Configuration" [] (some "Invalid input detected at marker") [] ] ]

def rootC2clear : XNode :=
  .node "Response" [] none [ .node "ResultSummary" [("ErrorCount", "0")] none [] ]

def devC2 : Device :=
  ⟨fun s => if s = buildEnvelope "<Clear/>" then rootC2clear else rootC2bad⟩

def rootC2clearFail : XNode :=
  .node "Response" [("ErrorMsg", "clear failed")] none
    [ .node "ResultSummary" [("ErrorCount", "1")] none [] ]

def devC2bad : Device :=
  ⟨fun s => if s = buildEnvelope "<Clear/>" then rootC2clearFail else rootC2bad⟩

def devC4 : Device :=
  ⟨fun _ => .node "Response" [] none [ .node "ResultSummary" [("ErrorCount", "0")] none [] ]⟩

def transC4 : Transport := ⟨1, 0, false, false, devC4⟩

def rootC7exec : XNode :=
  .node "Response" [] none
    [ .node "ResultSummary" [("ErrorCount", "0")] none []
    , .node "CLI" [] none [ .node "Exec" [] (some "\n  uptime is 1 day  \n\n") [] ] ]

def rootC7conf : XNode :=
  .node "Response" [] none
    [ .node "ResultSummary" [("ErrorCount", "0")] none []
    , .node "CLI" [] none [ .node "Configuration" [] (some "\t hostname r1 \r\n") [] ] ]

def devC7 : Device :=
  ⟨fun s => if s = buildEnvelope "<CLI><Exec>show version</Exec></CLI>"
    then rootC7exec else rootC7conf⟩

def hasCR (s : String) : Bool :=
  s.data.any (fun c => c == '\r')

def rootC6run : XNode :=
  .node "Response" [] none
    [ .node "ResultSummary" [("ErrorCount", "0")] none []
    , .node "CLI" [] none
        [ .node "Exec" [] (some "Building configuration...\nline2\nrun3\nline4\nend\n") [] ] ]

def rootC6conf : XNode :=
  .node "Response" [] none
    [ .node "ResultSummary" [("ErrorCount", "0")] none []
    , .node "CLI" [] none
        [ .node "Configuration" []
            (some "Building configuration...\nline2\nmerge3\nline4\nend\n") [] ] ]

def devC6 : Device :=
  ⟨fun s => if s = buildEnvelope ("<CLI><Exec>" ++ "show running-config" ++ "</Exec></CLI>")
    then rootC6run else rootC6conf⟩

def udiffC6 : List String → List String → Nat → List String :=
  fun _ _ _ => ["@@ -3 +3 @@\r\n", "-run3\r\n", "+merge3\r\n"]

def devC10 : Device := ⟨fun _ => .node "Response" [] none []⟩


theorem str_data_append (s t : String) : (s ++ t).data = s.data ++ t.data := rfl

theorem str_append_assoc (a b c : String) : (a ++ b) ++ c = a ++ (b ++ c) :=
  congrArg String.mk (List.append_assoc a.data b.data c.data)

theorem isPrefixOf_self_app (p b : List Char) : p.isPrefixOf (p ++ b) = true := by
  induction p with
  | nil => simp [List.isPrefixOf]
  | cons c t ih => simp [List.isPrefixOf, ih]

theorem listInfix_nil_pat (s : List Char) : listInfix [] s = true := by
  induction s with
  | nil => rfl
  | cons c t ih => simp [listInfix, ih, List.isPrefixOf]

theorem listInfix_sandwich (p a b : List Char) : listInfix p (a ++ (p ++ b)) = true := by
  induction a with
  | nil =>
    cases p with
    | nil => simpa using listInfix_nil_pat b
    | cons c t =>
      simp [listInfix, isPrefixOf_self_app]
  | cons d a ih =>
    simp [listInfix, ih]

theorem classify_response_error_branch (root : XNode) (cmd : String) (rs : XNode)
    (ec : String) (n : Int)
    (h1 : root.find "ResultSummary" = some rs) (h2 : rs.get "ErrorCount" = some ec)
    (h3 : pyInt? ec = some n) (h4 : 0 < n) :
    classify_response root cmd =
      match selectedErrorMsg root with
      | none => .error (.TypeErr "cannot concatenate NoneType and str objects")
      | some m => .error (.XMLCLIError (m ++ "\nOriginal call was: " ++ cmd)) := by
  simp only [classify_response, selectedErrorMsg, h1, h2, h3]
  rw [if_pos h4]

theorem classify_response_ok_branch (root : XNode) (cmd : String) (rs : XNode) (ec : String)
    (h1 : root.find "ResultSummary" = some rs) (h2 : rs.get "ErrorCount" = some ec)
    (h3 : pyInt? ec = some 0)
    (h4 : configPayloadSafe root = true) :
    classify_response root cmd = .ok root := by
  simp only [classify_response, h1, h2, h3]
  rw [if_neg (by omega : ¬((0:Int) < 0))]
  cases hcli : root.find "CLI" with
  | none => simp
  | some cli =>
    cases hconf : cli.find "Configuration" with
    | none => simp [hconf]
    | some conf =>
      cases htext : conf.text with
      | none => simp [hconf, htext]
      | some output =>
        simp only [configPayloadSafe, hcli, hconf, htext, Option.some_bind,
          Bool.not_eq_true'] at h4
        simp [hconf, htext, h4]

theorem strContains_left (p b : String) : strContains (p ++ b) p = true := by
  have h := listInfix_sandwich p.data [] b.data
  simpa [strContains, str_data_append] using h

theorem strContains_right (a p : String) : strContains (a ++ p) p = true := by
  have h := listInfix_sandwich p.data a.data []
  simpa [strContains, str_data_append] using h

/-- C5: for every request body `B`, the envelope sent to the device is
exactly the fixed header, then `B` unchanged, then the fixed footer. -/
theorem C5_envelope_exact (dev : Device) (trace : List String) (B : String) :
    buildEnvelope B =
      "<?xml version=\"1.0\" encoding=\"UTF-8\"?><Request MajorVersion=\"1\" MinorVersion=\"0\">"
        ++ B ++ "</Request>" ∧
    (__execute_rpc__ dev trace B).1 = trace ++ [buildEnvelope B] :=
  ⟨rfl, rfl⟩

/-- C9: calling `load_candidate_config` with both `filename` and `config`
omitted raises an untyped `TypeError` while building the RPC body, before
any RPC is sent (the trace is unchanged). -/
theorem C9_load_none_none_typeerror (dev : Device) (trace : List String)
    (readFile : String → String) :
    (load_candidate_config dev trace none readFile none).1 = trace ∧
    isTypeErr (load_candidate_config dev trace none readFile none).2 = true :=
  ⟨rfl, rfl⟩

/-- C1 (amended): a response whose `ResultSummary` `ErrorCount` parses to 0
makes `__execute_rpc__` return the parsed tree — provided no
`CLI`/`Configuration` payload text contains `"Invalid input detected"`,
in which case `InvalidInputError` is raised instead. -/
theorem C1_errorcount_zero_ok (dev : Device) (trace : List String) (body : String)
    (rs : XNode) (ec : String)
    (h1 : (dev.respond (buildEnvelope body)).find "ResultSummary" = some rs)
    (h2 : rs.get "ErrorCount" = some ec)
    (h3 : pyInt? ec = some 0)
    (h4 : configPayloadSafe (dev.respond (buildEnvelope body)) = true) :
    __execute_rpc__ dev trace body =
      (trace ++ [buildEnvelope body], .ok (dev.respond (buildEnvelope body))) := by
  simp only [__execute_rpc__]
  rw [classify_response_ok_branch _ _ rs ec h1 h2 h3 h4]

/-- C1 counterexample: a response with `ErrorCount = "0"` whose payload
contains `"Invalid input detected"` makes `__execute_rpc__` raise
`InvalidInputError` rather than return the tree. -/
theorem C1_counterexample :
    ((rootC1.find "ResultSummary").bind (fun rs => rs.get "ErrorCount")) = some "0" ∧
    isOkResult (__execute_rpc__ devC1 [] "<CLI><Configuration>xx</Configuration></CLI>").2
      = false ∧
    isInvalidInputError
      (__execute_rpc__ devC1 [] "<CLI><Configuration>xx</Configuration></CLI>").2 = true :=
  ⟨rfl, rfl, rfl⟩

/-- C1 witness: a concrete clean response is returned as a parsed tree. -/
theorem C1_witness :
    __execute_rpc__ devC1ok [] "<Commit/>" = ([buildEnvelope "<Commit/>"], .ok rootC1ok) :=
  C1_errorcount_zero_ok devC1ok [] "<Commit/>"
    (.node "ResultSummary" [("ErrorCount", "0")] none []) "0" rfl rfl rfl rfl

/-- C3: when `ErrorCount > 0`, the raised `XMLCLIError`'s message contains
the `ErrorMsg` attribute of the `CLI` child when present (of the root
otherwise), and the full original request envelope. -/
theorem C3_protocol_error_message (dev : Device) (trace : List String) (body X : String)
    (rs : XNode) (ec : String) (n : Int)
    (h1 : (dev.respond (buildEnvelope body)).find "ResultSummary" = some rs)
    (h2 : rs.get "ErrorCount" = some ec)
    (h3 : pyInt? ec = some n) (h4 : 0 < n)
    (h5 : selectedErrorMsg (dev.respond (buildEnvelope body)) = some X) :
    ∃ msg, (__execute_rpc__ dev trace body).2 = .error (.XMLCLIError msg) ∧
      strContains msg X = true ∧ strContains msg (buildEnvelope body) = true := by
  refine ⟨X ++ "\nOriginal call was: " ++ buildEnvelope body, ?_, ?_, ?_⟩
  · simp only [__execute_rpc__]
    rw [classify_response_error_branch _ _ rs ec n h1 h2 h3 h4]
    simp [h5]
  · rw [str_append_assoc]
    exact strContains_left X ("\nOriginal call was: " ++ buildEnvelope body)
  · exact strContains_right (X ++ "\nOriginal call was: ") (buildEnvelope body)

/-- C3 witness: a concrete failed response with a `CLI` child. -/
theorem C3_witness :
    ∃ msg, (__execute_rpc__ devC3 [] "<BadOp/>").2 = .error (.XMLCLIError msg) ∧
      strContains msg "Syntax error at token foo" = true ∧
      strContains msg (buildEnvelope "<BadOp/>") = true :=
  C3_protocol_error_message devC3 [] "<BadOp/>" "Syntax error at token foo"
    (.node "ResultSummary" [("ErrorCount", "2")] none []) "2" 2 rfl rfl rfl
    (by decide) rfl

/-- C8: when `ErrorCount > 0` and the selected node carries no `ErrorMsg`
attribute, the concatenation of `None` with a string raises an untyped
`TypeError` instead of the typed `XMLCLIError`. -/
theorem C8_missing_errormsg_typeerror (dev : Device) (trace : List String) (body : String)
    (rs : XNode) (ec : String) (n : Int)
    (h1 : (dev.respond (buildEnvelope body)).find "ResultSummary" = some rs)
    (h2 : rs.get "ErrorCount" = some ec)
    (h3 : pyInt? ec = some n) (h4 : 0 < n)
    (h5 : selectedErrorMsg (dev.respond (buildEnvelope body)) = none) :
    isTypeErr (__execute_rpc__ dev trace body).2 = true ∧
    isXMLCLIError (__execute_rpc__ dev trace body).2 = false := by
  have hb := classify_response_error_branch (dev.respond (buildEnvelope body))
    (buildEnvelope body) rs ec n h1 h2 h3 h4
  constructor <;> simp [__execute_rpc__, hb, h5, isTypeErr, isXMLCLIError]

/-- C8 witness: a concrete failed response whose `CLI` child has no
`ErrorMsg` attribute. -/
theorem C8_witness :
    isTypeErr (__execute_rpc__ devC8 [] "<Commit/>").2 = true ∧
    isXMLCLIError (__execute_rpc__ devC8 [] "<Commit/>").2 = false :=
  C8_missing_errormsg_typeerror devC8 [] "<Commit/>"
    (.node "ResultSummary" [("ErrorCount", "1")] none []) "1" 1 rfl rfl rfl
    (by decide) rfl

theorem buildEnvelope_inj {b1 b2 : String} (h : buildEnvelope b1 = buildEnvelope b2) :
    b1 = b2 := by
  have hd := congrArg String.data h
  simp only [buildEnvelope, str_data_append, List.append_assoc] at hd
  have h2 := List.append_cancel_left hd
  have h3 := List.append_cancel_right h2
  exact congrArg String.mk h3

theorem configBody_ne_clear (c : String) :
    ("<CLI><Configuration>" ++ c ++ "</Configuration></CLI>" : String) ≠ "<Clear/>" := by
  intro h
  have hd := congrArg String.data h
  have e1 : ("<CLI><Configuration>" : String).data
      = '<' :: 'C' :: 'L' :: ("I><Configuration>" : String).data := rfl
  have e2 : ("<Clear/>" : String).data = '<' :: 'C' :: 'l' :: ("ear/>" : String).data := rfl
  rw [str_data_append, str_data_append, e1, e2] at hd
  simp only [List.cons_append] at hd
  injection hd with _ hd
  injection hd with _ hd
  injection hd with hch _
  exact absurd hch (by decide)

theorem loadEnv_ne_clearEnv (c : String) :
    buildEnvelope ("<CLI><Configuration>" ++ c ++ "</Configuration></CLI>")
      ≠ buildEnvelope "<Clear/>" :=
  fun h => configBody_ne_clear c (buildEnvelope_inj h)

/-- C2 (amended): when the load RPC classifies as `InvalidInputError`, the
call issues exactly one `<Clear/>` RPC after the load envelope before any
error propagates; when the device accepts the `<Clear/>` the
`InvalidInputError` still propagates, and when the `<Clear/>` RPC itself
fails, the error of the discard propagates instead (lines 150-154: an
exception raised inside the `except` block escapes it). -/
theorem C2_load_discard_reraise_amended (dev : Device) (trace : List String)
    (filename : Option String) (readFile : String → String) (config : Option String)
    (c m : String)
    (hc : resolve_configuration filename readFile config = some c)
    (hload : classify_response
        (dev.respond (buildEnvelope ("<CLI><Configuration>" ++ c ++ "</Configuration></CLI>")))
        (buildEnvelope ("<CLI><Configuration>" ++ c ++ "</Configuration></CLI>"))
        = .error (.InvalidInputError m)) :
    (load_candidate_config dev trace filename readFile config).1 =
      trace ++ [buildEnvelope ("<CLI><Configuration>" ++ c ++ "</Configuration></CLI>"),
        buildEnvelope "<Clear/>"] ∧
    ([buildEnvelope ("<CLI><Configuration>" ++ c ++ "</Configuration></CLI>"),
        buildEnvelope "<Clear/>"].count (buildEnvelope "<Clear/>")) = 1 ∧
    (isOkResult (classify_response (dev.respond (buildEnvelope "<Clear/>"))
        (buildEnvelope "<Clear/>")) = true →
      (load_candidate_config dev trace filename readFile config).2 =
        .error (.InvalidInputError m)) ∧
    (∀ e, classify_response (dev.respond (buildEnvelope "<Clear/>"))
        (buildEnvelope "<Clear/>") = .error e →
      (load_candidate_config dev trace filename readFile config).2 = .error e) := by
  refine ⟨?_, ?_, ?_, ?_⟩
  · cases hres : classify_response (dev.respond (buildEnvelope "<Clear/>"))
        (buildEnvelope "<Clear/>") with
    | error e =>
      simp only [load_candidate_config, hc, discard_config, __execute_rpc__, hload, hres]
      simp
    | ok v =>
      simp only [load_candidate_config, hc, discard_config, __execute_rpc__, hload, hres]
      simp
  · have hne : (buildEnvelope ("<CLI><Configuration>" ++ c ++ "</Configuration></CLI>")
        == buildEnvelope "<Clear/>") = false :=
      beq_eq_false_iff_ne.mpr (loadEnv_ne_clearEnv c)
    simp [List.count_cons, hne]
  · intro hok
    cases hres : classify_response (dev.respond (buildEnvelope "<Clear/>"))
        (buildEnvelope "<Clear/>") with
    | error e => simp [isOkResult, hres] at hok
    | ok v =>
      simp only [load_candidate_config, hc, discard_config, __execute_rpc__, hload, hres]
  · intro e hres
    simp only [load_candidate_config, hc, discard_config, __execute_rpc__, hload, hres]

/-- C2 counterexample: a load whose response reports invalid input while
the device rejects the subsequent `<Clear/>` (its response has
`ErrorCount = "1"`): the load RPC classifies as `InvalidInputError`, yet
the error reaching the caller is the `XMLCLIError` of the discard, so the
`InvalidInputError` does not propagate. -/
theorem C2_counterexample :
    isInvalidInputError (classify_response
      (devC2bad.respond (buildEnvelope
        ("<CLI><Configuration>" ++ "bogus command" ++ "</Configuration></CLI>")))
      (buildEnvelope ("<CLI><Configuration>" ++ "bogus command" ++ "</Configuration></CLI>")))
      = true ∧
    isInvalidInputError
      (load_candidate_config devC2bad [] none (fun _ => "") (some "bogus command")).2
      = false ∧
    isXMLCLIError
      (load_candidate_config devC2bad [] none (fun _ => "") (some "bogus command")).2
      = true :=
  ⟨rfl, rfl, rfl⟩

/-- C2 witness: a concrete load whose response reports invalid input and
whose device accepts the `<Clear/>`. -/
theorem C2_witness :
    (load_candidate_config devC2 [] none (fun _ => "") (some "bogus command")).1 =
      [buildEnvelope ("<CLI><Configuration>" ++ "bogus command" ++ "</Configuration></CLI>"),
        buildEnvelope "<Clear/>"] ∧
    ([buildEnvelope ("<CLI><Configuration>" ++ "bogus command" ++ "</Configuration></CLI>"),
        buildEnvelope "<Clear/>"].count (buildEnvelope "<Clear/>")) = 1 ∧
    (load_candidate_config devC2 [] none (fun _ => "") (some "bogus command")).2 =
      .error (.InvalidInputError "Invalid input entered:\nInvalid input detected at marker") := by
  have h := C2_load_discard_reraise_amended devC2 [] none (fun _ => "") (some "bogus command")
    "bogus command" "Invalid input entered:\nInvalid input detected at marker" rfl rfl
  exact ⟨h.1, h.2.1, h.2.2.1 rfl⟩

/-- C4 (amended): when the login handshake reaches the password prompt but
the shell prompt never appears (rejected password), `open` fails with the
transport-level pexpect error — the source defines no
`AuthenticationError` — and no `<Lock/>` RPC (indeed no RPC at all) is
sent. -/
theorem C4_wrong_password_no_lock (t : Transport)
    (_h1 : t.firstExpect = 1) (h2 : t.promptOk = false) :
    (iosxr_open t).1 = [] ∧
    isPexpectErr (iosxr_open t).2 = true ∧
    isAuthenticationError (iosxr_open t).2 = false := by
  refine ⟨?_, ?_, ?_⟩ <;> simp [iosxr_open, h2, isPexpectErr, isAuthenticationError]

/-- C4 counterexample: with the password prompt answered and the shell
prompt never arriving, `open` does not raise `AuthenticationError` (it
raises the pexpect transport error); no Lock RPC is sent. -/
theorem C4_counterexample :
    transC4.firstExpect = 1 ∧ transC4.promptOk = false ∧
    isAuthenticationError (iosxr_open transC4).2 = false ∧
    isPexpectErr (iosxr_open transC4).2 = true ∧
    (iosxr_open transC4).1 = [] :=
  ⟨rfl, rfl, rfl, rfl, rfl⟩

/-- C4 witness for the amended theorem. -/
theorem C4_witness :
    (iosxr_open transC4).1 = [] ∧
    isPexpectErr (iosxr_open transC4).2 = true ∧
    isAuthenticationError (iosxr_open transC4).2 = false :=
  C4_wrong_password_no_lock transC4 rfl rfl

theorem execute_show_ok (dev : Device) (trace : List String) (cmd s : String) (ex : XNode)
    (h1 : classify_response
        (dev.respond (buildEnvelope ("<CLI><Exec>" ++ cmd ++ "</Exec></CLI>")))
        (buildEnvelope ("<CLI><Exec>" ++ cmd ++ "</Exec></CLI>"))
      = .ok (dev.respond (buildEnvelope ("<CLI><Exec>" ++ cmd ++ "</Exec></CLI>"))))
    (h2 : ((dev.respond (buildEnvelope ("<CLI><Exec>" ++ cmd ++ "</Exec></CLI>"))).find
        "CLI").bind (fun cli => cli.find "Exec") = some ex)
    (h3 : ex.text = some s) :
    __execute_show__ dev trace cmd =
      (trace ++ [buildEnvelope ("<CLI><Exec>" ++ cmd ++ "</Exec></CLI>")],
       .ok (pyLStrip s)) := by
  simp only [__execute_show__, __execute_rpc__]
  rw [h1]
  simp [h2, h3]

theorem execute_config_show_ok (dev : Device) (trace : List String) (cmd s : String)
    (conf : XNode)
    (h1 : classify_response
        (dev.respond (buildEnvelope ("<CLI><Configuration>" ++ cmd ++ "</Configuration></CLI>")))
        (buildEnvelope ("<CLI><Configuration>" ++ cmd ++ "</Configuration></CLI>"))
      = .ok (dev.respond
          (buildEnvelope ("<CLI><Configuration>" ++ cmd ++ "</Configuration></CLI>"))))
    (h2 : ((dev.respond
        (buildEnvelope ("<CLI><Configuration>" ++ cmd ++ "</Configuration></CLI>"))).find
        "CLI").bind (fun cli => cli.find "Configuration") = some conf)
    (h3 : conf.text = some s) :
    __execute_config_show__ dev trace cmd =
      (trace ++ [buildEnvelope ("<CLI><Configuration>" ++ cmd ++ "</Configuration></CLI>")],
       .ok (pyLStrip s)) := by
  simp only [__execute_config_show__, __execute_rpc__]
  rw [h1]
  simp [h2, h3]

theorem list_all_takeWhile (q : Char → Bool) (l : List Char) :
    (l.takeWhile q).all q = true := by
  induction l with
  | nil => rfl
  | cons c t ih => cases hc : q c <;> simp [List.takeWhile_cons, hc, ih]

theorem lstrip_decomposition (q : Char → Bool) (s : String) :
    String.mk (s.data.takeWhile q) ++ String.mk (s.data.dropWhile q) = s :=
  congrArg String.mk (List.takeWhile_append_dropWhile q s.data)

/-- C7: `__execute_show__` and `__execute_config_show__` return the payload
left-stripped only: the result is the payload minus a leading all
whitespace prefix, with everything after it (trailing whitespace
included) preserved verbatim. -/
theorem C7_left_trim_only (dev devc : Device) (trace : List String)
    (cmd cmdc s sc : String) (ex conf : XNode)
    (h1 : classify_response
        (dev.respond (buildEnvelope ("<CLI><Exec>" ++ cmd ++ "</Exec></CLI>")))
        (buildEnvelope ("<CLI><Exec>" ++ cmd ++ "</Exec></CLI>"))
      = .ok (dev.respond (buildEnvelope ("<CLI><Exec>" ++ cmd ++ "</Exec></CLI>"))))
    (h2 : ((dev.respond (buildEnvelope ("<CLI><Exec>" ++ cmd ++ "</Exec></CLI>"))).find
        "CLI").bind (fun cli => cli.find "Exec") = some ex)
    (h3 : ex.text = some s)
    (h4 : classify_response
        (devc.respond (buildEnvelope ("<CLI><Configuration>" ++ cmdc ++ "</Configuration></CLI>")))
        (buildEnvelope ("<CLI><Configuration>" ++ cmdc ++ "</Configuration></CLI>"))
      = .ok (devc.respond
          (buildEnvelope ("<CLI><Configuration>" ++ cmdc ++ "</Configuration></CLI>"))))
    (h5 : ((devc.respond
        (buildEnvelope ("<CLI><Configuration>" ++ cmdc ++ "</Configuration></CLI>"))).find
        "CLI").bind (fun cli => cli.find "Configuration") = some conf)
    (h6 : conf.text = some sc) :
    (__execute_show__ dev trace cmd).2 = .ok (pyLStrip s) ∧
    (__execute_config_show__ devc trace cmdc).2 = .ok (pyLStrip sc) ∧
    String.mk (s.data.takeWhile isPySpace) ++ pyLStrip s = s ∧
    (s.data.takeWhile isPySpace).all isPySpace = true ∧
    String.mk (sc.data.takeWhile isPySpace) ++ pyLStrip sc = sc ∧
    (sc.data.takeWhile isPySpace).all isPySpace = true := by
  refine ⟨?_, ?_, lstrip_decomposition isPySpace s, list_all_takeWhile isPySpace s.data,
    lstrip_decomposition isPySpace sc, list_all_takeWhile isPySpace sc.data⟩
  · rw [execute_show_ok dev trace cmd s ex h1 h2 h3]
  · rw [execute_config_show_ok devc trace cmdc sc conf h4 h5 h6]

/-- C7 witness: concrete payloads with leading and trailing whitespace. -/
theorem C7_witness :
    (__execute_show__ devC7 [] "show version").2 = .ok (pyLStrip "\n  uptime is 1 day  \n\n") ∧
    (__execute_config_show__ devC7 [] "show running-config").2
      = .ok (pyLStrip "\t hostname r1 \r\n") ∧
    String.mk ("\n  uptime is 1 day  \n\n".data.takeWhile isPySpace)
      ++ pyLStrip "\n  uptime is 1 day  \n\n" = "\n  uptime is 1 day  \n\n" ∧
    ("\n  uptime is 1 day  \n\n".data.takeWhile isPySpace).all isPySpace = true ∧
    String.mk ("\t hostname r1 \r\n".data.takeWhile isPySpace)
      ++ pyLStrip "\t hostname r1 \r\n" = "\t hostname r1 \r\n" ∧
    ("\t hostname r1 \r\n".data.takeWhile isPySpace).all isPySpace = true :=
  C7_left_trim_only devC7 devC7 [] "show version" "show running-config"
    "\n  uptime is 1 day  \n\n" "\t hostname r1 \r\n"
    (.node "Exec" [] (some "\n  uptime is 1 day  \n\n") [])
    (.node "Configuration" [] (some "\t hostname r1 \r\n") [])
    rfl rfl rfl rfl rfl rfl

theorem anyCR_filter (l : List Char) :
    (l.filter (fun c => !(c == '\r'))).any (fun c => c == '\r') = false := by
  induction l with
  | nil => rfl
  | cons c t ih => cases hc : (c == '\r') <;> simp [List.filter_cons, hc, ih]

theorem hasCR_removeCR (x : String) : hasCR (removeCR x) = false :=
  anyCR_filter x.data

theorem hasCR_append (s t : String) : hasCR (s ++ t) = (hasCR s || hasCR t) := by
  simp [hasCR, str_data_append]

theorem hasCR_foldl_removeCR (l : List String) :
    ∀ acc : String, hasCR acc = false →
      hasCR (List.foldl (fun r s => r ++ s) acc (l.map removeCR)) = false := by
  induction l with
  | nil => intro acc h; simpa using h
  | cons x t ih =>
    intro acc h
    simp only [List.map_cons, List.foldl_cons]
    exact ih (acc ++ removeCR x) (by simp [hasCR_append, h, hasCR_removeCR])

theorem hasCR_join_removeCR (l : List String) :
    hasCR (String.join (l.map removeCR)) = false := by
  have h := hasCR_foldl_removeCR l "" rfl
  simpa [String.join] using h

/-- C6: `compare_config` diffs exactly the line sequences of the two
returned texts with the first two and last two lines of each dropped,
passes zero context lines to the diff, and strips every carriage return
from the joined result; `compare_replace_config` returns the returned
diff text with exactly its first two and last two lines removed. -/
theorem C6_diff_trimming (udiff : List String → List String → Nat → List String)
    (dev dev2 : Device) (trace : List String) (sm sr sd : String) (confm ex confd : XNode)
    (hm1 : classify_response
        (dev.respond (buildEnvelope
          ("<CLI><Configuration>" ++ "show configuration merge" ++ "</Configuration></CLI>")))
        (buildEnvelope
          ("<CLI><Configuration>" ++ "show configuration merge" ++ "</Configuration></CLI>"))
      = .ok (dev.respond (buildEnvelope
          ("<CLI><Configuration>" ++ "show configuration merge" ++ "</Configuration></CLI>"))))
    (hm2 : ((dev.respond (buildEnvelope
        ("<CLI><Configuration>" ++ "show configuration merge" ++ "</Configuration></CLI>"))).find
        "CLI").bind (fun cli => cli.find "Configuration") = some confm)
    (hm3 : confm.text = some sm)
    (hr1 : classify_response
        (dev.respond (buildEnvelope ("<CLI><Exec>" ++ "show running-config" ++ "</Exec></CLI>")))
        (buildEnvelope ("<CLI><Exec>" ++ "show running-config" ++ "</Exec></CLI>"))
      = .ok (dev.respond
          (buildEnvelope ("<CLI><Exec>" ++ "show running-config" ++ "</Exec></CLI>"))))
    (hr2 : ((dev.respond (buildEnvelope
        ("<CLI><Exec>" ++ "show running-config" ++ "</Exec></CLI>"))).find
        "CLI").bind (fun cli => cli.find "Exec") = some ex)
    (hr3 : ex.text = some sr)
    (hd1 : classify_response
        (dev2.respond (buildEnvelope
          ("<CLI><Configuration>" ++ "show configuration changes diff" ++ "</Configuration></CLI>")))
        (buildEnvelope
          ("<CLI><Configuration>" ++ "show configuration changes diff" ++ "</Configuration></CLI>"))
      = .ok (dev2.respond (buildEnvelope
          ("<CLI><Configuration>" ++ "show configuration changes diff" ++ "</Configuration></CLI>"))))
    (hd2 : ((dev2.respond (buildEnvelope
        ("<CLI><Configuration>" ++ "show configuration changes diff" ++ "</Configuration></CLI>"))).find
        "CLI").bind (fun cli => cli.find "Configuration") = some confd)
    (hd3 : confd.text = some sd)
    (_hlen_r : 4 ≤ (pySplitlinesKeep (pyLStrip sr)).length)
    (_hlen_m : 4 ≤ (pySplitlinesKeep (pyLStrip sm)).length)
    (_hlen_d : 4 ≤ (pySplitlinesKeep (pyLStrip sd)).length) :
    (compare_config udiff dev trace).2 =
      .ok (String.join ((udiff (slice2m2 (pySplitlinesKeep (pyLStrip sr)))
        (slice2m2 (pySplitlinesKeep (pyLStrip sm))) 0).map removeCR)) ∧
    hasCR (String.join ((udiff (slice2m2 (pySplitlinesKeep (pyLStrip sr)))
        (slice2m2 (pySplitlinesKeep (pyLStrip sm))) 0).map removeCR)) = false ∧
    (compare_replace_config dev2 trace).2 =
      .ok (String.join (slice2m2 (pySplitlinesKeep (pyLStrip sd)))) := by
  have e1 := execute_config_show_ok dev trace "show configuration merge" sm confm hm1 hm2 hm3
  have e2 := execute_show_ok dev
    (trace ++ [buildEnvelope
      ("<CLI><Configuration>" ++ "show configuration merge" ++ "</Configuration></CLI>")])
    "show running-config" sr ex hr1 hr2 hr3
  have e3 := execute_config_show_ok dev2 trace "show configuration changes diff" sd confd
    hd1 hd2 hd3
  refine ⟨?_, hasCR_join_removeCR _, ?_⟩
  · simp only [compare_config]
    rw [e1]
    simp only [e2]
  · simp only [compare_replace_config]
    rw [e3]

/-- C6 witness: concrete five-line device texts and a concrete diff
collaborator. -/
theorem C6_witness :
    (compare_config udiffC6 devC6 []).2 =
      .ok (String.join ((udiffC6
        (slice2m2 (pySplitlinesKeep
          (pyLStrip "Building configuration...\nline2\nrun3\nline4\nend\n")))
        (slice2m2 (pySplitlinesKeep
          (pyLStrip "Building configuration...\nline2\nmerge3\nline4\nend\n"))) 0).map
        removeCR)) ∧
    hasCR (String.join ((udiffC6
        (slice2m2 (pySplitlinesKeep
          (pyLStrip "Building configuration...\nline2\nrun3\nline4\nend\n")))
        (slice2m2 (pySplitlinesKeep
          (pyLStrip "Building configuration...\nline2\nmerge3\nline4\nend\n"))) 0).map
        removeCR)) = false ∧
    (compare_replace_config devC6 []).2 =
      .ok (String.join (slice2m2 (pySplitlinesKeep
        (pyLStrip "Building configuration...\nline2\nmerge3\nline4\nend\n")))) :=
  C6_diff_trimming udiffC6 devC6 devC6 []
    "Building configuration...\nline2\nmerge3\nline4\nend\n"
    "Building configuration...\nline2\nrun3\nline4\nend\n"
    "Building configuration...\nline2\nmerge3\nline4\nend\n"
    (.node "Configuration" [] (some "Building configuration...\nline2\nmerge3\nline4\nend\n") [])
    (.node "Exec" [] (some "Building configuration...\nline2\nrun3\nline4\nend\n") [])
    (.node "Configuration" [] (some "Building configuration...\nline2\nmerge3\nline4\nend\n") [])
    rfl rfl rfl rfl rfl rfl rfl rfl rfl (by decide) (by decide) (by decide)

theorem execute_show_trace (dev : Device) (trace : List String) (cmd : String) :
    (__execute_show__ dev trace cmd).1 =
      trace ++ [buildEnvelope ("<CLI><Exec>" ++ cmd ++ "</Exec></CLI>")] := by
  simp only [__execute_show__, __execute_rpc__]
  cases hc : classify_response
      (dev.respond (buildEnvelope ("<CLI><Exec>" ++ cmd ++ "</Exec></CLI>")))
      (buildEnvelope ("<CLI><Exec>" ++ cmd ++ "</Exec></CLI>")) with
  | error e => simp
  | ok root =>
    cases hb : (root.find "CLI").bind (fun cli => cli.find "Exec") with
    | none => simp [hb]
    | some ex =>
      cases ht : ex.text with
      | none => simp [hb, ht]
      | some s => simp [hb, ht]

theorem show_wrapper_trace (item : String) (dev : Device) (trace : List String) :
    (show_wrapper_run item dev trace).1 =
      trace ++ [buildEnvelope ("<CLI><Exec>" ++ underscoreToSpace item ++ "</Exec></CLI>")] := by
  simp only [show_wrapper_run]
  cases hs : (__execute_show__ dev trace (underscoreToSpace item)).2 with
  | error e => simp [execute_show_trace]
  | ok resp =>
    cases hb : bannerSearch resp with
    | none => simp [hb, execute_show_trace]
    | some g => simp [hb, execute_show_trace]

/-- C10: attribute names not starting with `show` raise `AttributeError`;
names starting with `show` yield the wrapper closure, and running it sends
the name with underscores replaced by spaces as a show command. -/
theorem C10_getattr_dispatch (item : String) (dev : Device) (trace : List String) :
    (pyStartsWith item "show" = false →
      iosxr_getattr item =
        .error (.AttributeErr ("type object 'IOSXR' has no attribute '" ++ item ++ "'"))) ∧
    (pyStartsWith item "show" = true →
      iosxr_getattr item = .ok (show_wrapper_run item) ∧
      (show_wrapper_run item dev trace).1 =
        trace ++ [buildEnvelope ("<CLI><Exec>" ++ underscoreToSpace item ++ "</Exec></CLI>")]) := by
  constructor
  · intro h
    simp [iosxr_getattr, h]
  · intro h
    exact ⟨by simp [iosxr_getattr, h], show_wrapper_trace item dev trace⟩

/-- C10 witness: one non-show name, one show name. -/
theorem C10_witness :
    iosxr_getattr "close_session" =
      .error (.AttributeErr "type object 'IOSXR' has no attribute 'close_session'") ∧
    iosxr_getattr "show_ip_route" = .ok (show_wrapper_run "show_ip_route") ∧
    (show_wrapper_run "show_ip_route" devC10 []).1 =
      [buildEnvelope "<CLI><Exec>show ip route</Exec></CLI>"] := by
  refine ⟨(C10_getattr_dispatch "close_session" devC10 []).1 (by decide),
    ((C10_getattr_dispatch "show_ip_route" devC10 []).2 (by decide)).1, ?_⟩
  have h := ((C10_getattr_dispatch "show_ip_route" devC10 []).2 (by decide)).2
  rw [h]
  decide
